import Mathlib

/-!
Shallow embedding of the `libschedule24` crate (files `src/lib.rs`, `src/data.rs`,
`src/image.rs`) and proofs about its specification.

Modelling conventions:
* Rust `String`/`&str` values are modelled as their UTF-8 byte sequences, `List Nat`
  (the code indexes and measures strings by bytes).  `ascii` builds such a list from
  an ASCII Lean string literal.
* Machine integers: `i64` is modelled as `Int` (the arithmetic performed by the code
  on in-range schema coordinates does not overflow), `u8`/`u32` as `Nat` with the
  range enforced by the parsing functions exactly where the code enforces it.
* `f64` fields (`fontsize`) are modelled as `ℚ`; the only operation the code performs
  on them is the saturating toward-zero cast `as i64`, modelled by `f64_as_i64`.
  (NaN/infinity are outside the model.)
* A Rust panic (out-of-bounds slice, `Option::unwrap` on `None`) is modelled as a
  distinguished `panic` outcome (`PRes.panic`) or as `Option.none` for `add_box_info`,
  whose only panic source is that unwrap.
* Async I/O (`reqwest`, `cacache`) is modelled by passing the collaborators' outcomes
  in explicitly (`FetchEnv`) and recording the effects performed (`FetchOut`).
* Rust byte-slice panics on non-UTF-8-char boundaries are not modelled separately:
  all concrete inputs considered are ASCII.
-/

/-- Byte sequence of an ASCII string literal (model of a Rust `&str` by its bytes). -/
def ascii (s : String) : List Nat := s.data.map Char.toNat

/-- Rust byte slice `&s[a..b]`; bounds are checked separately by the callers. -/
def byteSlice (s : List Nat) (a b : Nat) : List Nat := (s.drop a).take (b - a)

/-- Value of one hexadecimal digit byte (`0-9`, `a-f`, `A-F`), as accepted by
`u8::from_str_radix(_, 16)`. -/
def hexVal (b : Nat) : Option Nat :=
  if 48 ≤ b ∧ b ≤ 57 then some (b - 48)
  else if 97 ≤ b ∧ b ≤ 102 then some (b - 87)
  else if 65 ≤ b ∧ b ≤ 70 then some (b - 55)
  else none

/-- Model of Rust `u8::from_str_radix(s, 16)`: an optional leading `+` (byte 43),
then a nonempty run of hex digits; the value must fit in a `u8` (overflow in the
accumulating loop is equivalent to the final value reaching 256, since the
accumulator is monotone). -/
def u8_from_str_radix16 (s : List Nat) : Option Nat :=
  let digits := match s with
    | b :: rest => if b = 43 then rest else b :: rest
    | [] => []
  if digits.isEmpty then none
  else
    (digits.foldl (fun acc b => acc.bind fun v => (hexVal b).map fun d => v * 16 + d)
      (some 0)).bind fun v => if v < 256 then some v else none

/-- Model of Rust `str::parse::<u32>()`: optional leading `+`, nonempty decimal
digits, value below `2^32`. -/
def parse_u32 (s : List Nat) : Option Nat :=
  let digits := match s with
    | b :: rest => if b = 43 then rest else b :: rest
    | [] => []
  if digits.isEmpty then none
  else
    (digits.foldl
      (fun acc b => acc.bind fun v =>
        if 48 ≤ b ∧ b ≤ 57 then some (v * 10 + (b - 48)) else none)
      (some 0)).bind fun v => if v < 2 ^ 32 then some v else none

/-- Model of Rust `str::split(sep)` collected in order: always yields at least one
(possibly empty) piece. -/
def splitOnByte (sep : Nat) : List Nat → List (List Nat)
  | [] => [[]]
  | b :: rest =>
    if b = sep then [] :: splitOnByte sep rest
    else match splitOnByte sep rest with
      | [] => [[b]]
      | p :: ps => (b :: p) :: ps

/-- Truncation of a rational toward zero (the rounding used by Rust `as i64` on a
finite `f64`): since the denominator is positive, T-division of numerator by
denominator truncates toward zero. -/
def ratTrunc (q : ℚ) : Int := Int.tdiv q.num q.den

/-- Model of the Rust cast `f : f64 as i64` for finite values: truncate toward
zero and saturate to the `i64` range. -/
def f64_as_i64 (q : ℚ) : Int := max (-(2 ^ 63)) (min (2 ^ 63 - 1) (ratTrunc q))

/-- Model of `serde_json::Value`, the opaque JSON side-channel type: the code only
ever asks `is_null` of it and passes it through unchanged. -/
inductive JsonValue where
  | null
  | boolV (b : Bool)
  | numV (n : Int)
  | strV (s : List Nat)
  | arrV (elems : List JsonValue)

/-- Model of `serde_json::Value::is_null`. -/
def JsonValue.isNull : JsonValue → Bool
  | .null => true
  | _ => false

/-- Model of `data::ValidationError` (`data.rs`): `id: u32`, `description: String`. -/
structure ValidationError where
  id : Nat
  description : List Nat
deriving DecidableEq, Inhabited

/-- Model of `data::ErrorData` (`data.rs`): opaque `errors` plus the list of
validation errors. -/
structure ErrorData where
  errors : JsonValue
  validation_errors : List ValidationError

/-- Model of `data::Response<T>` (`data.rs`): the generic response envelope with
its side-channel fields. -/
structure Response (T : Type) where
  error : JsonValue
  data : T
  exception : JsonValue
  validation : List JsonValue
  session_expires : JsonValue
  need_session_refresh : Bool

/-- Model of `data::APIResult<T>` (`data.rs`): untagged union of a success payload
and a failure payload. -/
inductive APIResult (T : Type) where
  | success (x : T)
  | failure (e : ErrorData)

/-- Model of `data::SchemaError` (`data.rs`). -/
inductive SchemaError where
  | api (e : ErrorData)
  | request
  | apiRoot

/-- Model of `impl TryFrom<Response<APIResult<T>>> for Response<T>` (`data.rs`
lines 207-227): reject a non-null root `error`, unwrap a success payload keeping
every side-channel field, turn a failure payload into `SchemaError::API`. -/
def tryFromResponse {T : Type} (v : Response (APIResult T)) :
    Except SchemaError (Response T) :=
  if !v.error.isNull then .error .apiRoot
  else match v.data with
    | .success x =>
        .ok { data := x, error := v.error, exception := v.exception,
              validation := v.validation, session_expires := v.session_expires,
              need_session_refresh := v.need_session_refresh }
    | .failure e => .error (.api e)

/-- Model of the cache-store error kind carried by `cacache::Error`: an entry
miss or a genuine I/O problem. -/
inductive CacheErr where
  | entryNotFound
  | io
deriving DecidableEq

/-- Model of `RequestError` (`lib.rs` lines 24-34); variants whose payloads the
code never inspects are modelled payload-free. -/
inductive RequestError where
  | reqwest
  | serde
  | schema (e : SchemaError)
  | baseDirectories
  | ioErr
  | utf8
  | cacache (e : CacheErr)
  | parseInt
  | empty

/-- Model of `data::School` (`data.rs`). -/
structure School where
  unit_guid : List Nat
  unit_id : List Nat

/-- Model of `domain_exists` (`lib.rs` lines 107-125), parameterised by the
outcome of its one `get_schools` call (async I/O is passed in explicitly):
a success maps to `true`; a `Schema(API e)` failure whose validation-error list
is exactly one element with id 1 maps to `false`; everything else is returned
unchanged. -/
def domain_exists_of (result : Except RequestError (List School)) :
    Except RequestError Bool :=
  match result with
  | .ok _ => .ok true
  | .error (.schema (.api e)) =>
      if e.validation_errors.length = 1 ∧ (e.validation_errors.headI).id = 1 then
        .ok false
      else
        .error (.schema (.api e))
  | .error e => .error e

/-- Model of `Dimensions` (`lib.rs`): `width`/`height` are `u32`. -/
structure Dimensions where
  width : Nat
  height : Nat
deriving DecidableEq

/-- Model of `impl FromStr for Dimensions` (`lib.rs` lines 94-105): split on the
byte `'x'` (120) and parse the first two pieces as `u32`; a missing second piece
or a failed integer parse is `ParseDimensionError` (modelled as `none`). -/
def dimensions_from_str (s : List Nat) : Option Dimensions :=
  match splitOnByte 120 s with
  | a :: b :: _ =>
      match parse_u32 a, parse_u32 b with
      | some w, some h => some { width := w, height := h }
      | _, _ => none
  | _ => none

/-- One step of UTF-8 validation: the state is `none` (expecting a leading byte)
or `some (k, lo, hi)` (expecting a continuation byte in `[lo, hi]`, with `k`
further continuation bytes after it); the result is `none` on an invalid byte. -/
def utf8Next (st : Option (Nat × Nat × Nat)) (b : Nat) :
    Option (Option (Nat × Nat × Nat)) :=
  match st with
  | some (k, lo, hi) =>
      if lo ≤ b ∧ b ≤ hi then
        some (if k = 0 then none else some (k - 1, 128, 191))
      else none
  | none =>
      if b ≤ 127 then some none
      else if 194 ≤ b ∧ b ≤ 223 then some (some (0, 128, 191))
      else if b = 224 then some (some (1, 160, 191))
      else if 225 ≤ b ∧ b ≤ 236 then some (some (1, 128, 191))
      else if b = 237 then some (some (1, 128, 159))
      else if 238 ≤ b ∧ b ≤ 239 then some (some (1, 128, 191))
      else if b = 240 then some (some (2, 144, 191))
      else if 241 ≤ b ∧ b ≤ 243 then some (some (2, 128, 191))
      else if b = 244 then some (some (2, 128, 143))
      else none

/-- Model of `std::str::from_utf8(..).is_ok()`: the byte list is well-formed
UTF-8 (no overlong forms, surrogates, or values beyond U+10FFFF). -/
def validUtf8 (l : List Nat) : Bool :=
  match l.foldl (fun acc b => acc.bind fun st => utf8Next st b) (some none) with
  | some none => true
  | _ => false

/-- Environment of one `cache_request` call: the cache store's contents and the
outcomes the external collaborators (cache read fault, render-key endpoint,
HTTP transport, cache write fault) would produce if invoked. -/
structure FetchEnv where
  store : List (List Nat × List Nat)
  readFault : Bool
  keyRes : Option (List Nat)
  netRes : Option (List Nat)
  writeFault : Bool

/-- Observable outcome of one `cache_request` call: its returned value, the
cache store afterwards, and how many store reads, render-key fetches, network
requests and store writes were performed. -/
structure FetchOut where
  result : Except RequestError (List Nat)
  store : List (List Nat × List Nat)
  reads : Nat
  keyCalls : Nat
  netCalls : Nat
  writes : Nat

/-- Lookup of a key in the modelled cache store. -/
def storeLookup (store : List (List Nat × List Nat)) (k : List Nat) :
    Option (List Nat) :=
  (store.find? fun p => p.1 = k).map (·.2)

/-- Model of `cacache::write`: replace the value under the key, or append the
entry if the key is new. -/
def storePut (store : List (List Nat × List Nat)) (k v : List Nat) :
    List (List Nat × List Nat) :=
  if (store.find? fun p => p.1 = k).isSome then
    store.map fun p => if p.1 = k then (k, v) else p
  else
    store ++ [(k, v)]

/-- Model of `cache_request` (`lib.rs` lines 147-189).  When `should_cache` the
store is read: a read fault becomes `Err(Cacache)`, a missing entry
`Err(Cacache(EntryNotFound))`; otherwise `data` is `Err(Empty)` without touching
the store.  An `Ok` read is returned after a UTF-8 check; ANY `Err` (including a
cache I/O fault) falls through to the network path: fetch the render key, issue
the request, and on success write the body to the store (a write fault is
returned as `Err(Cacache)`), finally returning the body.  The cache-directory
resolution (lines 148-150) is environment setup and is modelled as succeeding. -/
def cache_request (ckey : List Nat) (should_cache : Bool) (env : FetchEnv) :
    FetchOut :=
  let dataRes : Except RequestError (List Nat) × Nat :=
    if should_cache then
      (if env.readFault then .error (.cacache .io)
       else match storeLookup env.store ckey with
         | some bytes => .ok bytes
         | none => .error (.cacache .entryNotFound), 1)
    else (.error .empty, 0)
  match dataRes with
  | (.ok bytes, reads) =>
      if validUtf8 bytes then
        { result := .ok bytes, store := env.store, reads := reads,
          keyCalls := 0, netCalls := 0, writes := 0 }
      else
        { result := .error .utf8, store := env.store, reads := reads,
          keyCalls := 0, netCalls := 0, writes := 0 }
  | (.error _, reads) =>
      match env.keyRes with
      | none =>
          { result := .error .reqwest, store := env.store, reads := reads,
            keyCalls := 1, netCalls := 0, writes := 0 }
      | some _ =>
          match env.netRes with
          | none =>
              { result := .error .reqwest, store := env.store, reads := reads,
                keyCalls := 1, netCalls := 1, writes := 0 }
          | some body =>
              if env.writeFault then
                { result := .error (.cacache .io), store := env.store,
                  reads := reads, keyCalls := 1, netCalls := 1, writes := 1 }
              else
                { result := .ok body, store := storePut env.store ckey body,
                  reads := reads, keyCalls := 1, netCalls := 1, writes := 1 }

/-- Model of `data::Text` (`data.rs`): a schema text element; `fontsize` is the
only `f64` field in the crate. -/
structure Text where
  x : Int
  y : Int
  f_color : List Nat
  fontsize : ℚ
  text : List Nat
  bold : Bool
  italic : Bool
  id : Int
  parent_id : Int
  type_field : List Nat
deriving DecidableEq

/-- Model of `data::Box` (`data.rs`): a schema rectangle element. -/
structure Box where
  x : Int
  y : Int
  width : Int
  height : Int
  b_color : List Nat
  f_color : List Nat
  id : Int
  parent_id : Option Int
  type_field : List Nat
  lesson_guids : Option (List (List Nat))
deriving DecidableEq

/-- Model of `Box::default()`: every numeric field zero, strings empty, options
`None` (Rust `#[derive(Default)]`). -/
def Box.defaultBox : Box :=
  { x := 0, y := 0, width := 0, height := 0, b_color := [], f_color := [],
    id := 0, parent_id := none, type_field := [], lesson_guids := none }

/-- Model of `data::Line` (`data.rs`): a schema line element. -/
structure Line where
  p1x : Int
  p1y : Int
  p2x : Int
  p2y : Int
  color : List Nat
  id : Int
  parent_id : Int
  type_field : List Nat
deriving DecidableEq

/-- Model of `data::LessonInfo` (`data.rs`). -/
structure LessonInfo where
  guid_id : List Nat
  texts : List (List Nat)
  time_start : List Nat
  time_end : List Nat
  day_of_week_number : Int
  block_name : List Nat
  block : Box
deriving DecidableEq

/-- Model of `data::Schema` (`data.rs`): the fetched timetable. -/
structure Schema where
  text_list : List Text
  box_list : List Box
  line_list : List Line
  lesson_info : List LessonInfo
deriving DecidableEq

/-- Outcome of a fallible Rust computation that can also panic: `panic` models a
process abort (out-of-bounds byte slice), `perr` a returned `ParseIntError`. -/
inductive PRes (α : Type) where
  | panic
  | perr
  | ok (a : α)
deriving DecidableEq

/-- Sequencing of `PRes` computations (Rust `?` plus panic propagation). -/
def PRes.bind {α β : Type} : PRes α → (α → PRes β) → PRes β
  | .panic, _ => .panic
  | .perr, _ => .perr
  | .ok a, f => f a

/-- Mapping over a successful `PRes` outcome. -/
def PRes.map {α β : Type} (f : α → β) : PRes α → PRes β
  | .panic => .panic
  | .perr => .perr
  | .ok a => .ok (f a)

/-- Model of `Rgb` (`image.rs`): one parsed colour channel triple (`u8` each). -/
structure Rgb where
  r : Nat
  g : Nat
  b : Nat
deriving DecidableEq

/-- Model of `impl FromStr for Rgb` (`image.rs` lines 22-30): take the byte
slices `[1..3]`, `[3..5]`, `[5..7]` of the input and parse each as a base-16
`u8`, in that order (a parse failure returns before the next slice is taken).
A slice whose end lies beyond the input is an out-of-bounds panic, expressed
here by matching the input's shape; the length and the leading byte are never
otherwise inspected, so neither a leading `#` nor length exactly 7 is
required, and bytes past index 7 are ignored. -/
def rgb_from_str (hex_code : List Nat) : PRes Rgb :=
  match hex_code with
  | _ :: b1 :: b2 :: rest1 =>
    match u8_from_str_radix16 [b1, b2] with
    | none => .perr
    | some r =>
      match rest1 with
      | b3 :: b4 :: rest2 =>
        match u8_from_str_radix16 [b3, b4] with
        | none => .perr
        | some g =>
          match rest2 with
          | b5 :: b6 :: _ =>
            match u8_from_str_radix16 [b5, b6] with
            | none => .perr
            | some b => .ok { r := r, g := g, b := b }
          | _ => .panic
      | _ => .panic
  | _ => .panic

/-- Structured content of the style string built by `rect_style` (`image.rs`
lines 39-63); the `format!` presentation is modelled by its data: fill colour
(from `b_color`), stroke colour (from `f_color`), stroke width, and whether the
`cursor: pointer` fragment is appended. -/
structure RectStyle where
  fill : Rgb
  stroke : Rgb
  stroke_width : Nat
  cursor_pointer : Bool
deriving DecidableEq

/-- Model of `rect_style` (`image.rs` lines 39-63): stroke width 0 for `Footer`,
`ClockFrameStart`, `ClockFrameEnd`, otherwise 1; the cursor fragment only for
`Lesson`; `fg` is parsed from `f_color` first, then `bg` from `b_color`. -/
def rect_style (rect : Box) : PRes RectStyle :=
  let stroke_width : Nat :=
    if rect.type_field = ascii "Footer" ∨ rect.type_field = ascii "ClockFrameStart"
        ∨ rect.type_field = ascii "ClockFrameEnd" then 0 else 1
  let cursor_pointer := rect.type_field = ascii "Lesson"
  (rgb_from_str rect.f_color).bind fun fg =>
    (rgb_from_str rect.b_color).map fun bg =>
      { fill := bg, stroke := fg, stroke_width := stroke_width,
        cursor_pointer := cursor_pointer }

/-- Structured content of the style string built by `text_style` (`image.rs`
lines 65-68): fill colour and font size (family and pointer-events are fixed). -/
structure TextStyle where
  fill : Rgb
  fontsize : ℚ
deriving DecidableEq

/-- Model of `text_style` (`image.rs` lines 65-68). -/
def text_style (txt : Text) : PRes TextStyle :=
  (rgb_from_str txt.f_color).map fun c => { fill := c, fontsize := txt.fontsize }

/-- One emitted SVG rectangle (`generate_svg` box loop). -/
structure SvgRect where
  x : Int
  y : Int
  width : Int
  height : Int
  id : Int
  type_field : List Nat
  style : RectStyle
  focusable : Bool
deriving DecidableEq

/-- One emitted SVG text element (`generate_svg` text loop). -/
structure SvgText where
  x : Int
  y : Int
  id : Int
  style : TextStyle
  text : List Nat
deriving DecidableEq

/-- One emitted SVG line (`generate_svg` line loop). -/
structure SvgLine where
  x1 : Int
  y1 : Int
  x2 : Int
  y2 : Int
  stroke : List Nat
deriving DecidableEq

/-- The emitted SVG document, as data: canvas size and the three element lists
in painter's order (boxes, then text, then lines, each in schema order). -/
structure SvgDoc where
  width : Nat
  height : Nat
  rects : List SvgRect
  texts : List SvgText
  lines : List SvgLine
deriving DecidableEq

/-- Left-to-right effectful map for `PRes`: the first failing element's failure
kind is the whole result (the `?` inside the rendering loops). -/
def mapPRes {α β : Type} (f : α → PRes β) : List α → PRes (List β)
  | [] => .ok []
  | a :: rest => (f a).bind fun b => (mapPRes f rest).map fun bs => b :: bs

/-- One box of the `generate_svg` box loop (`image.rs` lines 77-94): style via
`rect_style`, geometry and id copied, focusability metadata only for `Lesson`. -/
def renderRect (rect : Box) : PRes SvgRect :=
  (rect_style rect).map fun st =>
    { x := rect.x, y := rect.y, width := rect.width, height := rect.height,
      id := rect.id, type_field := rect.type_field, style := st,
      focusable := rect.type_field = ascii "Lesson" }

/-- One text element of the `generate_svg` text loop (`image.rs` lines 96-127):
style via `text_style`; for types `ClockAxisBox` and `HeadingDay` the x
coordinate is recomputed from the first box whose `id` equals the text's
`parentId` (`x + width/2 - (len * fontsize as i64)/4`, `i64` division truncating
toward zero), falling back to the text's own `x`; the y coordinate is always
`y + fontsize as i64`. -/
def renderText (boxes : List Box) (txt : Text) : PRes SvgText :=
  (text_style txt).map fun st =>
    let x_coord : Int :=
      if txt.type_field = ascii "ClockAxisBox" ∨ txt.type_field = ascii "HeadingDay"
      then
        match boxes.find? fun rect => rect.id = txt.parent_id with
        | some rect =>
            rect.x + Int.tdiv rect.width 2 -
              Int.tdiv ((txt.text.length : Int) * f64_as_i64 txt.fontsize) 4
        | none => txt.x
      else txt.x
    { x := x_coord, y := txt.y + f64_as_i64 txt.fontsize, id := txt.id,
      style := st, text := txt.text }

/-- Model of `generate_svg` (`image.rs` lines 70-141): all boxes are rendered
first (the first colour failure aborting everything), then all text elements,
then the lines (whose colour string is passed through unparsed). -/
def generate_svg (schema_data : Schema) (dimensions : Dimensions) : PRes SvgDoc :=
  (mapPRes renderRect schema_data.box_list).bind fun rects =>
    (mapPRes (renderText schema_data.box_list) schema_data.text_list).map fun texts =>
      { width := dimensions.width, height := dimensions.height,
        rects := rects, texts := texts,
        lines := schema_data.line_list.map fun l =>
          { x1 := l.p1x, y1 := l.p1y, x2 := l.p2x, y2 := l.p2y,
            stroke := l.color } }

/-- Scan of the box list performed by `add_box_info` for one lesson (`lib.rs`
lines 318-325) threading the lesson's current `block`: boxes whose `type` is not
`"Lesson"` are skipped; for a `"Lesson"` box the code unwraps `lesson_guids`
unconditionally (`None` is a panic, modelled as `none`); if the guid list
contains the lesson's `guidId` the box becomes the new `block`. -/
def scanBlock (guid : List Nat) (boxes : List Box) (b : Box) : Option Box :=
  match boxes with
  | [] => some b
  | bx :: rest =>
      if bx.type_field = ascii "Lesson" then
        match bx.lesson_guids with
        | none => none
        | some gs => scanBlock guid rest (if guid ∈ gs then bx else b)
      else scanBlock guid rest b

/-- Enrichment of one `LessonInfo` (`lib.rs` inner loops): only the `block`
field can change. -/
def enrichOne (boxes : List Box) (li : LessonInfo) : Option LessonInfo :=
  (scanBlock li.guid_id boxes li.block).map fun b => { li with block := b }

/-- Option-valued map that fails when any element fails (the panic of the inner
loop propagates to the whole call). -/
def mapOpt {α β : Type} (f : α → Option β) : List α → Option (List β)
  | [] => some []
  | a :: rest =>
      match f a, mapOpt f rest with
      | some b, some bs => some (b :: bs)
      | _, _ => none

/-- Model of `add_box_info` (`lib.rs` lines 315-329): each lesson's `block` is
rewritten by scanning the whole box list in order (no break, so the last
matching box wins); `none` models the `unwrap` panic on a `"Lesson"` box whose
`lesson_guids` is `None` (the Rust signature's `Err` is never produced). -/
def add_box_info (data : Schema) : Option (List LessonInfo) :=
  mapOpt (enrichOne data.box_list) data.lesson_info

/-- Concrete environment for the `should_cache = false` scenario: the store
already holds a value for the key and every collaborator succeeds. -/
def env1 : FetchEnv :=
  { store := [(ascii "k", ascii "old")], readFault := false,
    keyRes := some (ascii "key"), netRes := some (ascii "new"),
    writeFault := false }

/-- Claim C1, counterexample: calling `cache_request` with `should_cache = false`
on a store that already holds a value for the key CHANGES the store (the network
response is written through), contradicting "the cache store's state is
unchanged afterwards". -/
theorem c1_counterexample :
    (cache_request (ascii "k") false env1).store ≠ env1.store := by
  decide

/-- Claim C1 (amended): with `should_cache = false` the cache store is never
read and, when the render-key fetch succeeds, exactly one network call is
performed; however the fetched body IS written to the store (write-through is
not skipped), so afterwards the store holds the response under the key. -/
theorem c1_cache_bypass_amended :
    (∀ (ckey : List Nat) (env : FetchEnv),
      (cache_request ckey false env).reads = 0) ∧
    (∀ (ckey k b : List Nat) (env : FetchEnv),
      env.keyRes = some k → env.netRes = some b → env.writeFault = false →
        (cache_request ckey false env).netCalls = 1 ∧
        (cache_request ckey false env).writes = 1 ∧
        (cache_request ckey false env).result = .ok b ∧
        (cache_request ckey false env).store = storePut env.store ckey b) := by
  constructor
  · intro ckey env
    rcases env with ⟨store, rf, kr, nr, wf⟩
    cases kr <;> cases nr <;> cases wf <;> rfl
  · intro ckey k b env hk hn hw
    rcases env with ⟨store, rf, kr, nr, wf⟩
    simp only at hk hn hw
    subst hk; subst hn; subst hw
    exact ⟨rfl, rfl, rfl, rfl⟩

/-- Claim C1, witness: the amended theorem applied to the concrete environment
`env1`. -/
theorem c1_witness :
    (cache_request (ascii "k") false env1).reads = 0 ∧
    (cache_request (ascii "k") false env1).store =
      storePut env1.store (ascii "k") (ascii "new") :=
  ⟨c1_cache_bypass_amended.1 (ascii "k") env1,
   (c1_cache_bypass_amended.2 (ascii "k") (ascii "key") (ascii "new") env1
      rfl rfl rfl).2.2.2⟩

/-- Concrete environment for the read-fault scenario: the cache read reports an
I/O error and both network collaborators succeed. -/
def env2 : FetchEnv :=
  { store := [], readFault := true, keyRes := some (ascii "key"),
    netRes := some (ascii "new"), writeFault := false }

/-- Claim C2, counterexample: with `should_cache = true` and a cache-store read
I/O error, `cache_request` performs a network call and returns the network body,
instead of failing with the cache-store failure kind and performing no network
call. -/
theorem c2_counterexample :
    (cache_request (ascii "k") true env2).netCalls = 1 ∧
    (cache_request (ascii "k") true env2).result = .ok (ascii "new") :=
  ⟨rfl, rfl⟩

/-- Claim C2 (amended): a cache-store read error is silently treated exactly
like a miss: after the failed read (one store access) the network path runs —
one render-key fetch, one network call — and on success the body is written to
the store and returned; the read error never surfaces. -/
theorem c2_read_fault_amended :
    ∀ (ckey k b : List Nat) (env : FetchEnv),
      env.readFault = true → env.keyRes = some k → env.netRes = some b →
      env.writeFault = false →
        (cache_request ckey true env).reads = 1 ∧
        (cache_request ckey true env).netCalls = 1 ∧
        (cache_request ckey true env).result = .ok b ∧
        (cache_request ckey true env).store = storePut env.store ckey b := by
  intro ckey k b env hf hk hn hw
  rcases env with ⟨store, rf, kr, nr, wf⟩
  simp only at hf hk hn hw
  subst hf; subst hk; subst hn; subst hw
  exact ⟨rfl, rfl, rfl, rfl⟩

/-- Claim C2, witness: the amended theorem applied to the concrete environment
`env2`. -/
theorem c2_witness :
    (cache_request (ascii "k") true env2).reads = 1 ∧
    (cache_request (ascii "k") true env2).result = .ok (ascii "new") :=
  ⟨(c2_read_fault_amended (ascii "k") (ascii "key") (ascii "new") env2
      rfl rfl rfl rfl).1,
   (c2_read_fault_amended (ascii "k") (ascii "key") (ascii "new") env2
      rfl rfl rfl rfl).2.2.1⟩

/-- Claim C3: envelope unwrapping.  A non-null root `error` fails with
`APIRoot`; a success payload is returned with every side-channel field of the
input preserved unchanged; a failure payload fails with `API` carrying exactly
the failure's data (hence its validation errors). -/
theorem c3_envelope_unwrap {T : Type} (v : Response (APIResult T)) :
    (v.error.isNull = false → tryFromResponse v = .error .apiRoot) ∧
    (v.error.isNull = true → ∀ x, v.data = .success x →
      tryFromResponse v =
        .ok { error := v.error, data := x, exception := v.exception,
              validation := v.validation, session_expires := v.session_expires,
              need_session_refresh := v.need_session_refresh }) ∧
    (v.error.isNull = true → ∀ e, v.data = .failure e →
      tryFromResponse v = .error (.api e)) := by
  refine ⟨fun h => ?_, fun h x hx => ?_, fun h e he => ?_⟩
  · simp [tryFromResponse, h]
  · simp [tryFromResponse, h, hx]
  · simp [tryFromResponse, h, he]

/-- Concrete successful envelope over `T = Nat` for the C3 witness. -/
def v3 : Response (APIResult Nat) :=
  { error := .null, data := .success 5, exception := .arrV [],
    validation := [.null], session_expires := .strV (ascii "soon"),
    need_session_refresh := true }

/-- Claim C3, witness: the unwrap theorem applied to a concrete successful
envelope over `T = Nat`. -/
theorem c3_witness :
    tryFromResponse v3 =
      .ok { error := .null, data := (5 : Nat), exception := .arrV [],
            validation := [.null], session_expires := .strV (ascii "soon"),
            need_session_refresh := true } :=
  (c3_envelope_unwrap v3).2.1 rfl 5 rfl

/-- Claim C4: `domain_exists` classifies its `get_schools` outcome.  A success
yields `Ok(true)`; the result is `Ok(false)` exactly when the outcome was an
application-level API failure whose validation-error list is a single element
with id 1; every other failure (including an API failure with two or more
validation errors, one of which may have id 1) is propagated unchanged. -/
theorem c4_domain_exists (r : Except RequestError (List School)) :
    (∀ s, r = .ok s → domain_exists_of r = .ok true) ∧
    (domain_exists_of r = .ok false ↔
      ∃ ej ve, r = .error (.schema (.api
        { errors := ej, validation_errors := [ve] })) ∧ ve.id = 1) ∧
    (∀ e, r = .error e →
      (¬ ∃ ej ve, e = .schema (.api
        { errors := ej, validation_errors := [ve] }) ∧ ve.id = 1) →
      domain_exists_of r = .error e) := by
  refine ⟨fun s hs => by rw [hs]; rfl, ?_, ?_⟩
  · cases r with
    | ok s => simp [domain_exists_of]
    | error e =>
      cases e with
      | schema se =>
        cases se with
        | api ed =>
          rcases ed with ⟨ej, ves⟩
          match ves with
          | [] => simp [domain_exists_of]
          | [ve] =>
            by_cases hid : ve.id = 1
            · constructor
              · intro _
                exact ⟨ej, ve, rfl, hid⟩
              · intro _
                simp [domain_exists_of, List.headI, hid]
            · simp [domain_exists_of, List.headI, hid]
          | ve1 :: ve2 :: rest => simp [domain_exists_of]
        | request => simp [domain_exists_of]
        | apiRoot => simp [domain_exists_of]
      | reqwest => simp [domain_exists_of]
      | serde => simp [domain_exists_of]
      | baseDirectories => simp [domain_exists_of]
      | ioErr => simp [domain_exists_of]
      | utf8 => simp [domain_exists_of]
      | cacache ce => simp [domain_exists_of]
      | parseInt => simp [domain_exists_of]
      | empty => simp [domain_exists_of]
  · intro e he hne
    subst he
    cases e with
    | schema se =>
      cases se with
      | api ed =>
        rcases ed with ⟨ej, ves⟩
        match ves with
        | [] => simp [domain_exists_of]
        | [ve] =>
          by_cases hid : ve.id = 1
          · exact absurd ⟨ej, ve, rfl, hid⟩ hne
          · simp [domain_exists_of, List.headI, hid]
        | ve1 :: ve2 :: rest => simp [domain_exists_of]
      | request => rfl
      | apiRoot => rfl
    | reqwest => rfl
    | serde => rfl
    | baseDirectories => rfl
    | ioErr => rfl
    | utf8 => rfl
    | cacache ce => rfl
    | parseInt => rfl
    | empty => rfl

/-- Outcome of `get_schools` carrying a single id-1 validation error (the
"domain does not exist" shape). -/
def rOne : Except RequestError (List School) :=
  .error (.schema (.api
    { errors := .null,
      validation_errors := [{ id := 1, description := ascii "missing" }] }))

/-- Outcome of `get_schools` carrying two validation errors, one of them with
id 1. -/
def rTwo : Except RequestError (List School) :=
  .error (.schema (.api
    { errors := .null,
      validation_errors := [{ id := 1, description := ascii "missing" },
                            { id := 2, description := ascii "other" }] }))

/-- Claim C4, witness: the classification theorem applied to the two concrete
outcomes — a sole id-1 validation error maps to `Ok(false)`, the two-error
outcome is propagated unchanged. -/
theorem c4_witness :
    domain_exists_of rOne = .ok false ∧
    domain_exists_of rTwo = .error (.schema (.api
      { errors := .null,
        validation_errors := [{ id := 1, description := ascii "missing" },
                              { id := 2, description := ascii "other" }] })) :=
  ⟨(c4_domain_exists rOne).2.1.mpr
      ⟨.null, { id := 1, description := ascii "missing" }, rfl, rfl⟩,
   (c4_domain_exists rTwo).2.2 _ rfl
      (by rintro ⟨ej, ve, h, _⟩; simp [rTwo] at h)⟩

/-- Claim C8, counterexample: the malformed dimension string `"800x600x700"`
(not of the form `"<width>x<height>"`) is ACCEPTED, yielding `{800, 600}`; the
third piece is silently ignored. -/
theorem c8_counterexample :
    dimensions_from_str (ascii "800x600x700") = some { width := 800, height := 600 } := by
  decide

/-- Claim C8 (amended): `Dimensions::from_str` splits on `'x'` and parses the
first two pieces as `u32`: `"800x600"` yields `{800, 600}` while `"800"` and
`"abcxdef"` fail, but a string is accepted exactly when its first two
`'x'`-separated pieces parse as `u32` — additional pieces are ignored (so
`"800x600x700"` is accepted) and `0` or a leading `+` are legal components. -/
theorem c8_dimensions_amended :
    dimensions_from_str (ascii "800x600") = some { width := 800, height := 600 } ∧
    dimensions_from_str (ascii "800") = none ∧
    dimensions_from_str (ascii "abcxdef") = none ∧
    (∀ (s : List Nat) (w h : Nat),
      dimensions_from_str s = some { width := w, height := h } ↔
      ∃ a b rest, splitOnByte 120 s = a :: b :: rest ∧
        parse_u32 a = some w ∧ parse_u32 b = some h) := by
  refine ⟨by decide, by decide, by decide, ?_⟩
  intro s w h
  constructor
  · intro hd
    unfold dimensions_from_str at hd
    cases hsp : splitOnByte 120 s with
    | nil => rw [hsp] at hd; cases hd
    | cons a rest1 =>
      cases rest1 with
      | nil => rw [hsp] at hd; cases hd
      | cons b rest =>
        rw [hsp] at hd
        replace hd : (match parse_u32 a, parse_u32 b with
          | some w0, some h0 => some (Dimensions.mk w0 h0)
          | _, _ => (none : Option Dimensions)) =
            some { width := w, height := h } := hd
        cases hpa : parse_u32 a with
        | none => rw [hpa] at hd; cases hd
        | some w0 =>
          cases hpb : parse_u32 b with
          | none => rw [hpa, hpb] at hd; cases hd
          | some h0 =>
            rw [hpa, hpb] at hd
            simp only [Option.some.injEq, Dimensions.mk.injEq] at hd
            exact ⟨a, b, rest, rfl, by rw [hpa, hd.1], by rw [hpb, hd.2]⟩
  · rintro ⟨a, b, rest, hsp, hpa, hpb⟩
    unfold dimensions_from_str
    rw [hsp]
    show (match parse_u32 a, parse_u32 b with
      | some w0, some h0 => some (Dimensions.mk w0 h0)
      | _, _ => (none : Option Dimensions)) = some { width := w, height := h }
    rw [hpa, hpb]

/-- Claim C8, witness: the characterisation applied to the concrete string
`"5x7"`. -/
theorem c8_witness : dimensions_from_str (ascii "5x7") = some { width := 5, height := 7 } :=
  (c8_dimensions_amended.2.2.2 (ascii "5x7") 5 7).mpr
    ⟨ascii "5", ascii "7", [], by decide, by decide, by decide⟩

/-- Concrete `"Lesson"` box whose `lesson_guids` is `None`. -/
def lessonBoxNone : Box :=
  { Box.defaultBox with type_field := ascii "Lesson", lesson_guids := none }

/-- Concrete lesson record with the default zero-valued block. -/
def li9 : LessonInfo :=
  { guid_id := ascii "g1", texts := [], time_start := [], time_end := [],
    day_of_week_number := 0, block_name := [], block := Box.defaultBox }

/-- Concrete schema containing a `"Lesson"` box with absent `lesson_guids` and
a non-empty lesson list. -/
def schema9 : Schema :=
  { text_list := [], box_list := [lessonBoxNone], line_list := [],
    lesson_info := [li9] }

/-- Claim C9: `add_box_info` is not total — on a schema with a box whose type
is `"Lesson"` but whose `lesson_guids` is `None` and a non-empty `lesson_info`
list, the unconditional `unwrap` panics (modelled as `none`) instead of
returning a result. -/
theorem c9_add_box_info_panics :
    add_box_info schema9 = none ∧
    lessonBoxNone.type_field = ascii "Lesson" ∧
    lessonBoxNone.lesson_guids = none ∧
    schema9.box_list = [lessonBoxNone] ∧
    schema9.lesson_info ≠ [] :=
  ⟨rfl, rfl, rfl, rfl, List.cons_ne_nil _ _⟩

/-- Bound on the value of a hex digit byte. -/
lemma hexVal_lt (b v : Nat) (h : hexVal b = some v) : v < 16 := by
  unfold hexVal at h
  repeat' split at h
  all_goals (cases h <;> omega)

/-- Shape of a 2-byte slice accepted by `u8::from_str_radix(_, 16)`: two hex
digits, or a leading `+` (byte 43) followed by one hex digit. -/
def isHexPair (l : List Nat) : Bool :=
  match l with
  | [a, b] => ((hexVal a).isSome && (hexVal b).isSome) || (a = 43 && (hexVal b).isSome)
  | _ => false

/-- A 2-byte list parses as a base-16 `u8` exactly when it has the hex-pair
shape (the value of two hex digits is at most 255, so the overflow check never
fires). -/
lemma u8_pair_isSome (a b : Nat) :
    (u8_from_str_radix16 [a, b]).isSome = isHexPair [a, b] := by
  unfold u8_from_str_radix16 isHexPair
  by_cases ha : a = 43
  · subst ha
    cases hb : hexVal b with
    | none => simp [List.foldl, hb]
    | some vb =>
      have := hexVal_lt b vb hb
      simp [List.foldl, hb]
      omega
  · cases hxa : hexVal a with
    | none => simp [List.foldl, ha, hxa]
    | some va =>
      cases hxb : hexVal b with
      | none => simp [List.foldl, ha, hxa, hxb]
      | some vb =>
        have h1 := hexVal_lt a va hxa
        have h2 := hexVal_lt b vb hxb
        simp [List.foldl, ha, hxa, hxb]
        omega

/-- A parsed colour implies the input had at least 7 bytes (the shape needed to
reach the third slice). -/
lemma rgb_ok_length (s : List Nat) (c : Rgb) (h : rgb_from_str s = .ok c) :
    7 ≤ s.length := by
  unfold rgb_from_str at h
  repeat' split at h
  all_goals simp_all

/-- Computation rule for `rgb_from_str` on an input of at least 7 bytes. -/
lemma rgb_from_str_cons7 (a b c d e f g : Nat) (t : List Nat) :
    rgb_from_str (a :: b :: c :: d :: e :: f :: g :: t) =
      (match u8_from_str_radix16 [b, c] with
      | none => .perr
      | some r =>
        match u8_from_str_radix16 [d, e] with
        | none => .perr
        | some g2 =>
          match u8_from_str_radix16 [f, g] with
          | none => .perr
          | some b2 => .ok { r := r, g := g2, b := b2 }) := rfl

/-- Claim C5, counterexample: the 7-character string `"01a2b3c"` has no leading
`'#'` yet parses successfully to `(26, 43, 60)` — the leading byte is never
inspected, contradicting "accepts exactly the strings ... consisting of a
leading `'#'` ...". -/
theorem c5_counterexample :
    (ascii "01a2b3c").length = 7 ∧
    (ascii "01a2b3c").headI ≠ 35 ∧
    rgb_from_str (ascii "01a2b3c") = .ok { r := 26, g := 43, b := 60 } := by
  decide

/-- Claim C5 (amended): `Rgb::from_str` parses the byte slices `[1..3]`,
`[3..5]`, `[5..7]` as base-16 `u8` and never inspects the leading byte or the
total length, so `"#1a2b3c"` yields `(26, 43, 60)` but strings of 7 or more
bytes are accepted whenever the three slices have the hex-pair shape (leading
byte arbitrary, bytes past index 7 ignored, `'+'`-prefixed slices legal); a
failed slice parse is a parse failure (which aborts the whole render), and no
string shorter than 7 bytes ever yields a colour. -/
theorem c5_rgb_parse_amended :
    rgb_from_str (ascii "#1a2b3c") = .ok { r := 26, g := 43, b := 60 } ∧
    rgb_from_str (ascii "#1a2b3cff") = .ok { r := 26, g := 43, b := 60 } ∧
    rgb_from_str (ascii "#1g2b3c") = .perr ∧
    (∀ (s : List Nat) (c : Rgb), s.length < 7 → rgb_from_str s ≠ .ok c) ∧
    (∀ s : List Nat, 7 ≤ s.length →
      ((∃ c, rgb_from_str s = .ok c) ↔
        (isHexPair (byteSlice s 1 3) ∧ isHexPair (byteSlice s 3 5) ∧
         isHexPair (byteSlice s 5 7)))) := by
  refine ⟨by decide, by decide, by decide, ?_, ?_⟩
  · intro s c hlen h
    exact absurd (rgb_ok_length s c h) (by omega)
  · intro s hlen
    rcases s with _ | ⟨a, _ | ⟨b, _ | ⟨c2, _ | ⟨d, _ | ⟨e, _ | ⟨f, _ | ⟨g, t⟩⟩⟩⟩⟩⟩⟩ <;>
      simp only [List.length_cons, List.length_nil] at hlen <;> try omega
    have hs1 : byteSlice (a :: b :: c2 :: d :: e :: f :: g :: t) 1 3 = [b, c2] := rfl
    have hs2 : byteSlice (a :: b :: c2 :: d :: e :: f :: g :: t) 3 5 = [d, e] := rfl
    have hs3 : byteSlice (a :: b :: c2 :: d :: e :: f :: g :: t) 5 7 = [f, g] := rfl
    rw [hs1, hs2, hs3]
    constructor
    · rintro ⟨c, hc⟩
      rw [rgb_from_str_cons7] at hc
      cases h1 : u8_from_str_radix16 [b, c2] with
      | none => simp only [h1] at hc; cases hc
      | some r =>
        simp only [h1] at hc
        cases h2 : u8_from_str_radix16 [d, e] with
        | none => simp only [h2] at hc; cases hc
        | some g2 =>
          simp only [h2] at hc
          cases h3 : u8_from_str_radix16 [f, g] with
          | none => simp only [h3] at hc; cases hc
          | some b2 =>
            refine ⟨?_, ?_, ?_⟩
            · rw [← u8_pair_isSome, h1]; rfl
            · rw [← u8_pair_isSome, h2]; rfl
            · rw [← u8_pair_isSome, h3]; rfl
    · rintro ⟨h1, h2, h3⟩
      rw [← u8_pair_isSome] at h1 h2 h3
      obtain ⟨r, hr⟩ := Option.isSome_iff_exists.mp h1
      obtain ⟨g2, hg⟩ := Option.isSome_iff_exists.mp h2
      obtain ⟨b2, hb⟩ := Option.isSome_iff_exists.mp h3
      refine ⟨{ r := r, g := g2, b := b2 }, ?_⟩
      rw [rgb_from_str_cons7]
      simp only [hr, hg, hb]

/-- Claim C5, witness: the characterisation applied to the concrete 9-byte
string `"01a2b3cZZ"` (no leading `'#'`, trailing bytes ignored). -/
theorem c5_witness : ∃ c, rgb_from_str (ascii "01a2b3cZZ") = .ok c :=
  (c5_rgb_parse_amended.2.2.2.2 (ascii "01a2b3cZZ") (by decide)).mpr
    (by decide)

/-- Claim C10, counterexample: the 3-byte string `"#zz"` is shorter than 7
bytes yet does NOT panic — the first slice `"zz"` fails to parse, so the
function returns a parse error before the out-of-bounds slice is reached. -/
theorem c10_counterexample :
    (ascii "#zz").length < 7 ∧
    rgb_from_str (ascii "#zz") = .perr ∧
    rgb_from_str (ascii "#zz") ≠ .panic := by
  decide

/-- Concrete box carrying a 1-byte colour string. -/
def box10 : Box :=
  { Box.defaultBox with b_color := ascii "#ffffff", f_color := ascii "#" }

/-- Concrete schema whose only box carries the 1-byte colour string. -/
def schema10 : Schema :=
  { text_list := [], box_list := [box10], line_list := [], lesson_info := [] }

/-- Claim C10 (amended): `Rgb::from_str` is indeed not total, but not every
input shorter than 7 bytes panics: every input shorter than 3 bytes panics
(the first slice is already out of bounds), an input panics whenever every
slice taken before the out-of-bounds one parses (e.g. `""` and `"#1a2b3"`),
and `generate_svg` panics when a box carries such a colour string; however no
input shorter than 7 bytes yields a colour — a short input whose first
in-bounds slice fails to parse (e.g. `"#zz"`) returns a parse error instead of
panicking. -/
theorem c10_rgb_short_amended :
    (∀ s : List Nat, s.length < 3 → rgb_from_str s = .panic) ∧
    rgb_from_str (ascii "") = .panic ∧
    rgb_from_str (ascii "#1a2b3") = .panic ∧
    (∀ (s : List Nat) (c : Rgb), s.length < 7 → rgb_from_str s ≠ .ok c) ∧
    generate_svg schema10 { width := 800, height := 600 } = .panic := by
  refine ⟨?_, by decide, by decide, ?_, by decide⟩
  · intro s h
    match s with
    | [] => rfl
    | [a] => rfl
    | [a, b] => rfl
    | a :: b :: c :: t => simp only [List.length_cons] at h; omega
  · intro s c hlen h
    exact absurd (rgb_ok_length s c h) (by omega)

/-- Claim C10, witness: the amended theorem applied to the concrete 1-byte
input `"#"`. -/
theorem c10_witness : rgb_from_str (ascii "#") = .panic :=
  c10_rgb_short_amended.1 (ascii "#") (by decide)

/-- Predicate for a box that enriches a lesson with the given guid: its type is
`"Lesson"` and its guid list (when present) contains the guid. -/
def matchesLesson (guid : List Nat) (bx : Box) : Bool :=
  bx.type_field = ascii "Lesson" && decide (guid ∈ bx.lesson_guids.getD [])

/-- Dropping through a cons when taking the last element with a default. -/
lemma getLastD_cons {α : Type} (x : α) (l : List α) (d : α) :
    ((x :: l).getLast?).getD d = (l.getLast?).getD x := by
  induction l generalizing x d with
  | nil => rfl
  | cons y ys ih => rw [List.getLast?_cons_cons, ih y d, ih y x]

/-- A successful box scan yields the last matching box, or the initial block if
no box matches. -/
lemma scanBlock_eq (guid : List Nat) (boxes : List Box) (b b' : Box)
    (h : scanBlock guid boxes b = some b') :
    b' = ((boxes.filter (matchesLesson guid)).getLast?).getD b := by
  induction boxes generalizing b with
  | nil =>
    injection h with h'
    subst h'
    rfl
  | cons bx rest ih =>
    unfold scanBlock at h
    by_cases ht : bx.type_field = ascii "Lesson"
    · rw [if_pos ht] at h
      cases hg : bx.lesson_guids with
      | none => simp only [hg] at h; cases h
      | some gs =>
        simp only [hg] at h
        by_cases hm : guid ∈ gs
        · rw [if_pos hm] at h
          have hmb : matchesLesson guid bx = true := by
            simp [matchesLesson, ht, hg, hm]
          rw [List.filter_cons_of_pos hmb, getLastD_cons]
          exact ih _ h
        · rw [if_neg hm] at h
          have hmb : matchesLesson guid bx = false := by
            simp [matchesLesson, hg, hm]
          rw [List.filter_cons_of_neg (by simp [hmb])]
          exact ih _ h
    · rw [if_neg ht] at h
      have hmb : matchesLesson guid bx = false := by
        simp [matchesLesson, ht]
      rw [List.filter_cons_of_neg (by simp [hmb])]
      exact ih _ h

/-- Inversion of a successful `mapOpt`: same length, elementwise success. -/
lemma mapOpt_some {α β : Type} (f : α → Option β) (l : List α) (out : List β)
    (h : mapOpt f l = some out) :
    out.length = l.length ∧
    ∀ i (hi : i < l.length) (hi' : i < out.length),
      f (l.get ⟨i, hi⟩) = some (out.get ⟨i, hi'⟩) := by
  induction l generalizing out with
  | nil =>
    injection h with h'
    subst h'
    exact ⟨rfl, fun i hi _ => absurd hi (by simp)⟩
  | cons a rest ih =>
    unfold mapOpt at h
    cases hfa : f a with
    | none => simp only [hfa] at h; cases h
    | some b =>
      cases hrest : mapOpt f rest with
      | none => simp only [hfa, hrest] at h; cases h
      | some bs =>
        simp only [hfa, hrest, Option.some.injEq] at h
        subst h
        obtain ⟨hl, hfun⟩ := ih bs hrest
        refine ⟨by simp [hl], ?_⟩
        intro i hi hi'
        cases i with
        | zero => exact hfa
        | succ n =>
          exact hfun n (by simpa using hi) (by simpa using hi')

/-- Claim C7: for every schema on which `add_box_info` returns (`some out`),
the i-th output lesson equals the i-th input lesson with its `block` replaced
by the LAST box in box-list order matching the lesson (`type == "Lesson"` and
guid list containing the lesson's `guidId`); when no box matches, the lesson is
returned unchanged — in particular its default zero-valued `block` is kept.
The function is a pure function of the schema. -/
theorem c7_add_box_info (data : Schema) (out : List LessonInfo)
    (h : add_box_info data = some out) :
    out.length = data.lesson_info.length ∧
    ∀ i (hi : i < data.lesson_info.length) (hi' : i < out.length),
      out.get ⟨i, hi'⟩ =
        { data.lesson_info.get ⟨i, hi⟩ with
          block := (((data.box_list.filter
              (matchesLesson (data.lesson_info.get ⟨i, hi⟩).guid_id)).getLast?).getD
            (data.lesson_info.get ⟨i, hi⟩).block) } := by
  unfold add_box_info at h
  obtain ⟨hl, hf⟩ := mapOpt_some _ _ _ h
  refine ⟨hl, ?_⟩
  intro i hi hi'
  have he := hf i hi hi'
  unfold enrichOne at he
  cases hs : scanBlock (data.lesson_info.get ⟨i, hi⟩).guid_id data.box_list
      (data.lesson_info.get ⟨i, hi⟩).block with
  | none => rw [hs] at he; simp at he
  | some b' =>
    rw [hs] at he
    replace he : { data.lesson_info.get ⟨i, hi⟩ with block := b' } =
        out.get ⟨i, hi'⟩ := by
      simpa using he
    rw [← he, scanBlock_eq _ _ _ _ hs]

/-- Concrete `"Lesson"` box referencing guid `"g1"`. -/
def lbox7 : Box :=
  { Box.defaultBox with
      type_field := ascii "Lesson",
      lesson_guids := some [ascii "g1"] }

/-- Concrete lesson matching `lbox7`. -/
def li7 : LessonInfo :=
  { guid_id := ascii "g1", texts := [], time_start := [], time_end := [],
    day_of_week_number := 0, block_name := [], block := Box.defaultBox }

/-- Concrete lesson matching no box. -/
def li7b : LessonInfo :=
  { guid_id := ascii "g2", texts := [], time_start := [], time_end := [],
    day_of_week_number := 0, block_name := [], block := Box.defaultBox }

/-- Concrete schema for the enrichment scenario. -/
def schema7 : Schema :=
  { text_list := [], box_list := [lbox7], line_list := [],
    lesson_info := [li7, li7b] }

/-- Expected enrichment output for `schema7`. -/
def out7 : List LessonInfo := [{ li7 with block := lbox7 }, li7b]

/-- Claim C7, witness: the theorem applied to the concrete enrichment scenario
(a matching lesson gets the box as its `block`, the unmatched lesson keeps the
zero-valued default). -/
theorem c7_witness :
    out7.length = schema7.lesson_info.length ∧
    (out7.get ⟨0, by decide⟩).block = lbox7 ∧
    out7.get ⟨1, by decide⟩ = li7b := by
  have h := c7_add_box_info schema7 out7 (by decide)
  exact ⟨h.1, by decide, by decide⟩

/-- Inversion of a successful `mapPRes`: same length, elementwise success. -/
lemma mapPRes_ok {α β : Type} (f : α → PRes β) (l : List α) (out : List β)
    (h : mapPRes f l = .ok out) :
    out.length = l.length ∧
    ∀ i (hi : i < l.length) (hi' : i < out.length),
      f (l.get ⟨i, hi⟩) = .ok (out.get ⟨i, hi'⟩) := by
  induction l generalizing out with
  | nil =>
    injection h with h'
    subst h'
    exact ⟨rfl, fun i hi _ => absurd hi (by simp)⟩
  | cons a rest ih =>
    unfold mapPRes at h
    cases hfa : f a with
    | panic => simp only [hfa, PRes.bind] at h; cases h
    | perr => simp only [hfa, PRes.bind] at h; cases h
    | ok b =>
      simp only [hfa, PRes.bind] at h
      cases hrest : mapPRes f rest with
      | panic => simp only [hrest, PRes.map] at h; cases h
      | perr => simp only [hrest, PRes.map] at h; cases h
      | ok bs =>
        simp only [hrest, PRes.map, PRes.ok.injEq] at h
        subst h
        obtain ⟨hl, hfun⟩ := ih bs hrest
        refine ⟨by simp [hl], ?_⟩
        intro i hi hi'
        cases i with
        | zero => exact hfa
        | succ n =>
          exact hfun n (by simpa using hi) (by simpa using hi')

/-- The first index satisfying a predicate determines `find?`. -/
lemma find?_of_first {α : Type} (p : α → Bool) (l : List α) (j : Nat)
    (hj : j < l.length) (hpj : p (l.get ⟨j, hj⟩) = true)
    (hfirst : ∀ k (hk : k < j), p (l.get ⟨k, Nat.lt_trans hk hj⟩) = false) :
    l.find? p = some (l.get ⟨j, hj⟩) := by
  induction l generalizing j with
  | nil => exact absurd hj (by simp)
  | cons a rest ih =>
    cases j with
    | zero => exact List.find?_cons_of_pos rest hpj
    | succ n =>
      have ha : p a = false := hfirst 0 (Nat.succ_pos n)
      rw [List.find?_cons_of_neg rest (by simp [ha])]
      exact ih n (by simpa using hj) hpj (fun k hk => hfirst (k + 1) (by omega))

/-- If no index satisfies the predicate, `find?` misses. -/
lemma find?_of_none {α : Type} (p : α → Bool) (l : List α)
    (h : ∀ j (hj : j < l.length), p (l.get ⟨j, hj⟩) = false) :
    l.find? p = none := by
  rw [List.find?_eq_none]
  intro x hx
  obtain ⟨⟨k, hk⟩, rfl⟩ := List.mem_iff_get.mp hx
  simpa using h k hk

/-- Claim C6 (amended): in `generate_svg`, for every text element the emitted y
coordinate is `y + (fontsize as i64)` — the Rust cast truncates toward zero
(equal to `floor(fontsize)` for non-negative font sizes but not for negative
fractional ones); for text of type `ClockAxisBox` or `HeadingDay`, if some box
has `id` equal to the text's `parentId`, the emitted x is
`box.x + box.width/2 - (len * (fontsize as i64))/4` for the FIRST such box in
list order (`i64` division truncating toward zero), otherwise the text's own
`x`; for every other type the x is the text's own `x` unchanged. -/
theorem c6_text_layout_amended (schema : Schema) (dims : Dimensions)
    (doc : SvgDoc) (h : generate_svg schema dims = .ok doc) :
    doc.texts.length = schema.text_list.length ∧
    ∀ i (hi : i < schema.text_list.length) (hi' : i < doc.texts.length),
      ((doc.texts.get ⟨i, hi'⟩).y =
        (schema.text_list.get ⟨i, hi⟩).y +
          f64_as_i64 (schema.text_list.get ⟨i, hi⟩).fontsize) ∧
      (((schema.text_list.get ⟨i, hi⟩).type_field = ascii "ClockAxisBox" ∨
          (schema.text_list.get ⟨i, hi⟩).type_field = ascii "HeadingDay") →
        ((∀ j (hj : j < schema.box_list.length),
            (schema.box_list.get ⟨j, hj⟩).id =
              (schema.text_list.get ⟨i, hi⟩).parent_id →
            (∀ k (hk : k < j),
              (schema.box_list.get ⟨k, Nat.lt_trans hk hj⟩).id ≠
                (schema.text_list.get ⟨i, hi⟩).parent_id) →
            (doc.texts.get ⟨i, hi'⟩).x =
              (schema.box_list.get ⟨j, hj⟩).x +
                Int.tdiv (schema.box_list.get ⟨j, hj⟩).width 2 -
                Int.tdiv
                  (((schema.text_list.get ⟨i, hi⟩).text.length : Int) *
                    f64_as_i64 (schema.text_list.get ⟨i, hi⟩).fontsize) 4) ∧
         ((∀ j (hj : j < schema.box_list.length),
             (schema.box_list.get ⟨j, hj⟩).id ≠
               (schema.text_list.get ⟨i, hi⟩).parent_id) →
           (doc.texts.get ⟨i, hi'⟩).x = (schema.text_list.get ⟨i, hi⟩).x))) ∧
      ((¬((schema.text_list.get ⟨i, hi⟩).type_field = ascii "ClockAxisBox" ∨
          (schema.text_list.get ⟨i, hi⟩).type_field = ascii "HeadingDay")) →
        (doc.texts.get ⟨i, hi'⟩).x = (schema.text_list.get ⟨i, hi⟩).x) := by
  unfold generate_svg at h
  cases hr : mapPRes renderRect schema.box_list with
  | panic => simp only [hr, PRes.bind] at h; cases h
  | perr => simp only [hr, PRes.bind] at h; cases h
  | ok rects =>
    simp only [hr, PRes.bind] at h
    cases htx : mapPRes (renderText schema.box_list) schema.text_list with
    | panic => simp only [htx, PRes.map] at h; cases h
    | perr => simp only [htx, PRes.map] at h; cases h
    | ok texts =>
      simp only [htx, PRes.map, PRes.ok.injEq] at h
      subst h
      obtain ⟨hl, hf⟩ := mapPRes_ok _ _ _ htx
      refine ⟨hl, ?_⟩
      intro i hi hi'
      dsimp only
      have he := hf i hi hi'
      cases hst : text_style (schema.text_list.get ⟨i, hi⟩) with
      | panic => unfold renderText at he; simp only [hst, PRes.map] at he; cases he
      | perr => unfold renderText at he; simp only [hst, PRes.map] at he; cases he
      | ok st =>
        unfold renderText at he
        simp only [hst, PRes.map, PRes.ok.injEq] at he
        refine ⟨?_, ?_, ?_⟩
        · rw [← he]
        · intro htype
          constructor
          · intro j hj hid hfirst
            have hfind : schema.box_list.find?
                (fun rect => rect.id = (schema.text_list.get ⟨i, hi⟩).parent_id) =
                some (schema.box_list.get ⟨j, hj⟩) := by
              apply find?_of_first
              · simpa using hid
              · intro k hk
                exact decide_eq_false (hfirst k hk)
            rw [← he]
            simp only [if_pos htype, hfind]
          · intro hnone
            have hfind : schema.box_list.find?
                (fun rect => rect.id = (schema.text_list.get ⟨i, hi⟩).parent_id) =
                none :=
              find?_of_none _ _ (fun j hj => decide_eq_false (hnone j hj))
            rw [← he]
            simp only [if_pos htype, hfind]
        · intro hneg
          rw [← he]
          simp only [if_neg hneg]

/-- Concrete text element with negative fractional `fontsize` `-3/2`. -/
def ntxt6 : Text :=
  { x := 0, y := 0, f_color := ascii "#000000", fontsize := Rat.divInt (-3) 2,
    text := ascii "A", bold := false, italic := false, id := 1, parent_id := 0,
    type_field := ascii "Foo" }

/-- Concrete schema holding only `ntxt6`. -/
def nschema6 : Schema :=
  { text_list := [ntxt6], box_list := [], line_list := [], lesson_info := [] }

/-- The document `generate_svg` emits for `nschema6`. -/
def ndoc6 : SvgDoc :=
  { width := 800, height := 600, rects := [],
    texts := [{ x := 0, y := -1, id := 1,
                style := { fill := { r := 0, g := 0, b := 0 },
                           fontsize := Rat.divInt (-3) 2 },
                text := ascii "A" }],
    lines := [] }

/-- Claim C6, counterexample: for `fontsize = -3/2` the code emits
`y = 0 + (-3/2 as i64) = -1` (truncation toward zero), while the claim's
`y + floor(fontsize)` would give `-2`; so the emitted y coordinate is NOT
always `y + floor(fontsize)`. -/
theorem c6_counterexample :
    generate_svg nschema6 { width := 800, height := 600 } = .ok ndoc6 ∧
    (ndoc6.texts.get ⟨0, by decide⟩).y = -1 ∧
    ntxt6.y + Rat.floor ntxt6.fontsize = -2 ∧
    (-1 : Int) ≠ -2 := by
  decide

/-- Concrete `HeadingDay` box of the rendering scenario. -/
def wbox6 : Box :=
  { x := 0, y := 0, width := 100, height := 50, b_color := ascii "#000000",
    f_color := ascii "#000000", id := 1, parent_id := none,
    type_field := ascii "HeadingDay", lesson_guids := none }

/-- Concrete `HeadingDay` text `"Mon"` of the rendering scenario. -/
def wtxt6 : Text :=
  { x := 0, y := 0, f_color := ascii "#000000", fontsize := 20,
    text := ascii "Mon", bold := false, italic := false, id := 7,
    parent_id := 1, type_field := ascii "HeadingDay" }

/-- Concrete schema of the rendering scenario. -/
def wschema6 : Schema :=
  { text_list := [wtxt6], box_list := [wbox6], line_list := [],
    lesson_info := [] }

/-- The document `generate_svg` emits for `wschema6`. -/
def wdoc6 : SvgDoc :=
  { width := 800, height := 600,
    rects := [{ x := 0, y := 0, width := 100, height := 50, id := 1,
                type_field := ascii "HeadingDay",
                style := { fill := { r := 0, g := 0, b := 0 },
                           stroke := { r := 0, g := 0, b := 0 },
                           stroke_width := 1, cursor_pointer := false },
                focusable := false }],
    texts := [{ x := 35, y := 20, id := 7,
                style := { fill := { r := 0, g := 0, b := 0 }, fontsize := 20 },
                text := ascii "Mon" }],
    lines := [] }

/-- Claim C6, witness: the layout theorem applied to the concrete scenario —
box `{id: 1, x: 0, width: 100, type: HeadingDay}` with text
`{x: 0, parentId: 1, text: "Mon", fontsize: 20}` is positioned at
`x = 0 + 100/2 - (3*20)/4 = 35` and `y = 0 + 20 = 20`. -/
theorem c6_witness :
    (wdoc6.texts.get ⟨0, by decide⟩).x = 35 ∧
    (wdoc6.texts.get ⟨0, by decide⟩).y = 20 := by
  have h := c6_text_layout_amended wschema6 { width := 800, height := 600 }
    wdoc6 (by decide)
  have h0 := h.2 0 (by decide) (by decide)
  constructor
  · have hx := (h0.2.1 (Or.inr (by decide))).1 0 (by decide) (by decide)
      (fun k hk => absurd hk (by omega))
    exact hx.trans (by decide)
  · exact h0.1.trans (by decide)
